import Mathlib

/-!
# Verification of the fitcheck gesture-interpretation core

Shallow embedding of `src/fitcheck-react/src/App.tsx`: the hover/dwell tool
selector, the pinch-driven gesture-to-transform mapper, the no-hand reset, and
the body-relative auto-calibrator.  JavaScript numbers are modelled as `ℚ` in
the state machine; the landmark-geometry helpers (`Math.hypot`, `Math.atan2`)
are modelled over `ℝ` in a separate section.  DOM rectangles are supplied to
the core as container-relative hitboxes, mirroring `getBoundingClientRect`
arithmetic in `isPointInElement`.
-/

namespace Fitcheck

/-! ## Constants (App.tsx lines 17-24) -/

def DWELL_TIME : ℚ := 500
def ROTATION_SPEED : ℚ := 0.01
def SCALE_SPEED : ℚ := 0.0001
def MIN_SCALE : ℚ := 0.005
def MAX_SCALE : ℚ := 2.5

/-! ## Data model -/

/-- Pixel coordinates relative to the container's top-left (`interface Position`). -/
structure Position where
  x : ℚ
  y : ℚ
  deriving DecidableEq, Repr

/-- The manipulation tool enumeration (`type Tool`). -/
inductive Tool where
  | NONE | MOVE | ROTATE | SCALE
  deriving DecidableEq, Repr

/-- The application mode (`type Mode`). -/
inductive Mode where
  | UPLOAD | ADJUST | TRYON_HAND | TRYON_BODY
  deriving DecidableEq, Repr

/-- The transform part shared by `interface Design` and `interface CompositeImage`
(the `url`/`name` string fields carry no manipulation state and are omitted). -/
structure CompositeImage where
  position : Position
  rotation : ℚ
  scale : ℚ
  deriving DecidableEq, Repr

/-- A button hitbox, already expressed relative to the video container
(the code computes `elementRect - containerRect` from `getBoundingClientRect`;
`none` models a null element or null container). -/
structure Rect where
  left : ℚ
  top : ℚ
  right : ℚ
  bottom : ℚ
  deriving DecidableEq, Repr

/-- The three toolbar button hitboxes supplied by the rendering layer each frame
(`moveBtnRef` / `rotateBtnRef` / `scaleBtnRef`). -/
structure Buttons where
  moveBtn : Option Rect
  rotateBtn : Option Rect
  scaleBtn : Option Rect
  deriving DecidableEq, Repr

/-- Body measurements consumed by the auto-calibrator
(`calculateBodyMeasurements` result record). -/
structure BodyMeasurement where
  shoulderWidth : ℚ
  chestCenter : Position
  shoulderAngle : ℚ
  torsoHeight : ℚ
  deriving DecidableEq, Repr

/-- The mutable component state of `App`: React `useState` values and the
`useRef` cells it keeps in sync with them.  `activeToolRef` and the
`activeTool` state are written together in the code and are modelled as the
single field `activeTool`. -/
structure AppState where
  mode : Mode
  design : Option CompositeImage
  compositeImage : Option CompositeImage
  fingerPos : Option Position
  isPinching : Bool
  activeTool : Tool
  hoverTool : Tool
  hoverStart : Option ℚ
  hoverConsumed : Bool
  wasPinching : Bool
  rotationStart : Option ℚ
  scaleStart : Option ℚ
  baseShoulderWidth : Option ℚ
  smoothedScale : ℚ
  originalScale : ℚ
  bodyMeasurements : Option BodyMeasurement
  deriving DecidableEq, Repr

/-! ## Utility functions -/

/-- Hitbox test (`isPointInElement`): `none` models a null element or container,
for which the code returns `false`.  Parameter order of the comparisons follows
the source: `x >= left && x <= right && y >= top && y <= bottom`. -/
def isPointInElement (point : Position) (rect : Option Rect) : Bool :=
  match rect with
  | none => false
  | some r =>
    point.x ≥ r.left && point.x ≤ r.right && point.y ≥ r.top && point.y ≤ r.bottom

/-- Clamp (`clamp(value, min, max) = Math.min(Math.max(value, min), max)`);
the bound parameters are renamed `lo`/`hi` because `min`/`max` are operations
in Lean. -/
def clamp (value lo hi : ℚ) : ℚ :=
  min (max value lo) hi

/-! ## Tool selection (`getHoveredTool`, `handleToolSelection`) -/

/-- Hovered-tool resolution (App.tsx lines 476-487): `NONE` while pinching,
otherwise the first of MOVE / ROTATE / SCALE whose hitbox contains the point. -/
def getHoveredTool (btns : Buttons) (pos : Position) (isPinching : Bool) : Tool :=
  if isPinching then Tool.NONE
  else if isPointInElement pos btns.moveBtn then Tool.MOVE
  else if isPointInElement pos btns.rotateBtn then Tool.ROTATE
  else if isPointInElement pos btns.scaleBtn then Tool.SCALE
  else Tool.NONE

/-- Dwell-based tool selection (App.tsx lines 492-513).  `now` is the value of
`performance.now()` for this frame.  The third branch's JavaScript guard
`hoverStartRef.current && now - hoverStartRef.current > DWELL_TIME` is truthy
only when the stored start time is non-null and non-zero, which the `match`
and the `t0 ≠ 0` conjunct reproduce. -/
def handleToolSelection (btns : Buttons) (s : AppState) (pos : Position)
    (isPinching : Bool) (now : ℚ) : AppState :=
  let hoveredTool := getHoveredTool btns pos isPinching
  if hoveredTool = Tool.NONE then
    { s with hoverTool := Tool.NONE, hoverStart := none, hoverConsumed := false }
  else if s.hoverTool ≠ hoveredTool then
    { s with hoverTool := hoveredTool, hoverStart := some now, hoverConsumed := false }
  else
    match s.hoverStart with
    | none => s
    | some t0 =>
      if s.hoverConsumed = false ∧ t0 ≠ 0 ∧ now - t0 > DWELL_TIME then
        let newTool := if s.activeTool = hoveredTool then Tool.NONE else hoveredTool
        { s with activeTool := newTool, hoverConsumed := true }
      else s

/-! ## Tool execution (`executeActiveTool`) -/

/-- One `switch (currentTool)` block of `executeActiveTool`.  The identical
switch statement appears twice in the source (ADJUST acting on `design`,
lines 532-563, and TRYON_HAND acting on `compositeImage`, lines 567-598);
this helper is that block applied to the given image, returning the updated
image together with the updated `rotationStartRef` / `scaleStartRef` cells.
Only reached while pinching. -/
def applyToolTo (tool : Tool) (pos : Position) (img : CompositeImage)
    (rotationStart scaleStart : Option ℚ) :
    CompositeImage × Option ℚ × Option ℚ :=
  match tool with
  | Tool.NONE => (img, rotationStart, scaleStart)
  | Tool.MOVE => ({ img with position := pos }, rotationStart, scaleStart)
  | Tool.ROTATE =>
    match rotationStart with
    | none => (img, some pos.y, scaleStart)
    | some anchorY =>
      ({ img with rotation := img.rotation + (pos.y - anchorY) * ROTATION_SPEED },
       some anchorY, scaleStart)
  | Tool.SCALE =>
    match scaleStart with
    | none => (img, rotationStart, some pos.x)
    | some anchorX =>
      ({ img with scale := clamp (img.scale + (pos.x - anchorX) * SCALE_SPEED) MIN_SCALE MAX_SCALE },
       rotationStart, some anchorX)

/-- Tool execution (App.tsx lines 519-600): clear the latches on the
pinch-release edge, remember the pinch flag, and, while pinching, run the
active tool's case on `design` (ADJUST mode) or `compositeImage`
(TRYON_HAND mode) when that image is present. -/
def executeActiveTool (s : AppState) (pos : Position) (isPinching : Bool) : AppState :=
  let currentTool := s.activeTool
  let s1 := if s.wasPinching = true ∧ isPinching = false then
      { s with rotationStart := none, scaleStart := none }
    else s
  let s2 := { s1 with wasPinching := isPinching }
  if isPinching = false then s2
  else
    let s3 :=
      if s2.mode = Mode.ADJUST then
        match s2.design with
        | some d =>
          let r := applyToolTo currentTool pos d s2.rotationStart s2.scaleStart
          { s2 with design := some r.1, rotationStart := r.2.1, scaleStart := r.2.2 }
        | none => s2
      else s2
    if s3.mode = Mode.TRYON_HAND then
      match s3.compositeImage with
      | some c =>
        let r := applyToolTo currentTool pos c s3.rotationStart s3.scaleStart
        { s3 with compositeImage := some r.1, rotationStart := r.2.1, scaleStart := r.2.2 }
      | none => s3
    else s3

/-! ## Hand-frame callbacks -/

/-- Per-hand-frame callback (App.tsx lines 603-611): record the cursor state,
then run tool selection followed by tool execution. -/
def handleHandDetected (btns : Buttons) (s : AppState) (pos : Position)
    (isPinching : Bool) (now : ℚ) : AppState :=
  let s1 := { s with fingerPos := some pos, isPinching := isPinching }
  executeActiveTool (handleToolSelection btns s1 pos isPinching now) pos isPinching

/-- No-hand callback (App.tsx lines 613-620): clears the cursor, the hovered
tool, the hover start time and both gesture latches.  It does not touch
`hoverConsumedRef`, `activeTool`, or either image transform. -/
def handleNoHand (s : AppState) : AppState :=
  { s with fingerPos := none, isPinching := false, hoverTool := Tool.NONE,
           hoverStart := none, rotationStart := none, scaleStart := none }

/-! ## Body-frame callbacks and effects -/

/-- Baseline-capture effect (App.tsx lines 639-652): on a body frame in
TRYON_BODY mode with no baseline yet, latch the base shoulder width and seed
`originalScaleRef` / `smoothedScaleRef` from the composite image's scale;
outside TRYON_BODY mode the baseline is discarded. -/
def captureBaselineEffect (s : AppState) : AppState :=
  let s1 :=
    if s.mode = Mode.TRYON_BODY ∧ s.baseShoulderWidth = none then
      match s.bodyMeasurements with
      | some m =>
        let s' := { s with baseShoulderWidth := some m.shoulderWidth }
        match s.compositeImage with
        | some c => { s' with originalScale := c.scale, smoothedScale := c.scale }
        | none => s'
      | none => s
    else s
  if s1.mode ≠ Mode.TRYON_BODY then { s1 with baseShoulderWidth := none } else s1

/-- Auto-position effect (App.tsx lines 655-673): in TRYON_BODY mode with
measurements and a composite image, clamp the shoulder-width ratio to
`[0.5, 3.0]`, advance the smoothed scale by an EMA step with factor 0.2, and
write position / rotation / scale.  The JavaScript expression
`bodyMeasurements.shoulderWidth / baseShoulderWidthRef.current` is modelled
with `Option.getD 0`; the effect ordering guarantees the baseline is set
whenever this effect runs on a body frame. -/
def autoPositionEffect (s : AppState) : AppState :=
  if s.mode = Mode.TRYON_BODY then
    match s.bodyMeasurements, s.compositeImage with
    | some m, some c =>
      let scaleFactor := clamp (m.shoulderWidth / (s.baseShoulderWidth.getD 0)) 0.5 3.0
      let targetScale := s.originalScale * scaleFactor
      let smoothed := s.smoothedScale + (targetScale - s.smoothedScale) * 0.2
      { s with smoothedScale := smoothed,
               compositeImage := some
                 { c with position := { x := m.chestCenter.x, y := m.chestCenter.y + 100 },
                          rotation := m.shoulderAngle,
                          scale := smoothed } }
    | _, _ => s
  else s

/-- Per-body-frame callback (`handlePoseDetected`, App.tsx lines 623-632,
followed by the two effects that react to the new `bodyMeasurements` value):
store the measurement record, then run baseline capture and auto-position. -/
def handlePoseDetected (s : AppState) (m : BodyMeasurement) : AppState :=
  autoPositionEffect (captureBaselineEffect { s with bodyMeasurements := some m })

/-! ## Observation frames and runs -/

/-- One observation delivered by the perception module. -/
inductive Obs where
  | hand (pos : Position) (isPinching : Bool) (now : ℚ)
  | noHand
  | body (m : BodyMeasurement)
  deriving Repr

/-- Whether an observation is a body-pose frame. -/
def Obs.isBodyObs : Obs → Bool
  | Obs.body _ => true
  | _ => false

/-- Process one observation frame. -/
def step (btns : Buttons) (s : AppState) : Obs → AppState
  | Obs.hand pos isPinching now => handleHandDetected btns s pos isPinching now
  | Obs.noHand => handleNoHand s
  | Obs.body m => handlePoseDetected s m

/-- Process a sequence of observation frames in order. -/
def run (btns : Buttons) (s : AppState) (l : List Obs) : AppState :=
  List.foldl (step btns) s l

/-- Process a sequence of observation frames while counting the frames on
which the active tool changes (used to state "toggles exactly once"). -/
def runCount (btns : Buttons) (sc : AppState × ℕ) (l : List Obs) : AppState × ℕ :=
  List.foldl
    (fun sc o =>
      let s' := step btns sc.1 o
      (s', sc.2 + (if s'.activeTool = sc.1.activeTool then 0 else 1)))
    sc l

/-! ## Landmark geometry (`calculateBodyMeasurements`), over `ℝ`

`Math.hypot` and `Math.atan2` are modelled over the reals; `Math.atan2 y x`
is the argument of the complex number `x + y i` (both return `0` at the
origin, matching `Math.atan2(0, 0) = 0`). -/

/-- A landmark point in container pixels, real-valued. -/
structure PointR where
  x : ℝ
  y : ℝ

/-- Result record of `getKeyBodyPoints` (App.tsx lines 152-175). -/
structure KeyBodyPoints where
  nose : PointR
  leftShoulder : PointR
  rightShoulder : PointR
  leftHip : PointR
  rightHip : PointR

/-- Model of `Math.hypot(a, b)`. -/
noncomputable def hypot (a b : ℝ) : ℝ := Real.sqrt (a ^ 2 + b ^ 2)

/-- Model of `Math.atan2(y, x)` (radians, range `(-π, π]`, `0` at the origin). -/
noncomputable def atan2 (y x : ℝ) : ℝ := Complex.arg ⟨x, y⟩

/-- Real-valued body-measurement record. -/
structure BodyMeasurementR where
  shoulderWidth : ℝ
  chestCenter : PointR
  shoulderAngle : ℝ
  torsoHeight : ℝ

/-- Body measurements (App.tsx lines 180-209).  The `torsoHeight` expression
in the source reads `chestCenter.y - (leftHip.y = rightHip.y) / 2`: the inner
parenthesis is a JavaScript assignment, which overwrites `leftHip.y` with
`rightHip.y` (mutating the `keyPoints` argument through the destructured
reference) and evaluates to `rightHip.y`.  The second component of the result
is the `keyPoints` object as it stands after the call, making that mutation
explicit. -/
noncomputable def calculateBodyMeasurements (keyPoints : KeyBodyPoints) :
    BodyMeasurementR × KeyBodyPoints :=
  let leftShoulder := keyPoints.leftShoulder
  let rightShoulder := keyPoints.rightShoulder
  let leftHip := keyPoints.leftHip
  let rightHip := keyPoints.rightHip
  let shoulderWidth := hypot (rightShoulder.x - leftShoulder.x)
    (rightShoulder.y - leftShoulder.y)
  let chestCenter : PointR :=
    { x := (leftShoulder.x + rightShoulder.x) / 2,
      y := (leftShoulder.y + rightShoulder.y) / 2 }
  let shoulderAngle := atan2 (rightShoulder.y - leftShoulder.y)
    (rightShoulder.x - leftShoulder.x) * (180 / Real.pi)
  let assignedY := rightHip.y
  let torsoHeight := hypot (chestCenter.x - (leftHip.x + rightHip.x) / 2)
    (chestCenter.y - assignedY / 2)
  ({ shoulderWidth := shoulderWidth, chestCenter := chestCenter,
     shoulderAngle := shoulderAngle, torsoHeight := torsoHeight },
   { keyPoints with leftHip := { x := leftHip.x, y := assignedY } })

/-! ## Derived predicates and fixtures -/

/-- The toggle performed by a dwell-qualifying hover: `NONE` if the hovered
tool is already active, otherwise the hovered tool. -/
def toggleTool (active hovered : Tool) : Tool :=
  if active = hovered then Tool.NONE else hovered

/-- The scale of an optional image transform lies within
`[MIN_SCALE, MAX_SCALE]`. -/
def scaleInBounds (img : Option CompositeImage) : Prop :=
  ∀ c, img = some c → MIN_SCALE ≤ c.scale ∧ c.scale ≤ MAX_SCALE

/-- Both image transforms held by the component have in-bounds scales. -/
def scalesInBounds (s : AppState) : Prop :=
  scaleInBounds s.design ∧ scaleInBounds s.compositeImage

/-- Hover bookkeeping summary: hovered tool, latched start time, consumed
flag, and current active tool. -/
def HoverInv (T : Tool) (t1 : ℚ) (a : Tool) (consumed : Bool) (s : AppState) : Prop :=
  s.hoverTool = T ∧ s.hoverStart = some t1 ∧ s.hoverConsumed = consumed ∧
    s.activeTool = a

/-- Hand-hover frames `(now, fingertip)`, not pinching, as observations. -/
def hoverObs (l : List (ℚ × Position)) : List Obs :=
  l.map (fun f => Obs.hand f.2 false f.1)

/-- Empty toolbar (no button hitboxes supplied). -/
def noBtns : Buttons := ⟨none, none, none⟩

/-- A quiescent TRYON_HAND state holding a unit composite image. -/
def baseState : AppState :=
  { mode := Mode.TRYON_HAND, design := none,
    compositeImage := some ⟨⟨0, 0⟩, 0, 1⟩,
    fingerPos := none, isPinching := false, activeTool := Tool.NONE,
    hoverTool := Tool.NONE, hoverStart := none, hoverConsumed := false,
    wasPinching := false, rotationStart := none, scaleStart := none,
    baseShoulderWidth := none, smoothedScale := 0, originalScale := 1,
    bodyMeasurements := none }

/-- A toolbar with a MOVE button at `[100,200] × [100,150]` and a ROTATE
button at `[300,400] × [100,150]`. -/
def toolbarBtns : Buttons :=
  ⟨some ⟨100, 100, 200, 150⟩, some ⟨300, 100, 400, 150⟩, none⟩

/-- A toolbar in which all three button hitboxes coincide (`[0,10] × [0,10]`). -/
def overlapBtns : Buttons :=
  ⟨some ⟨0, 0, 10, 10⟩, some ⟨0, 0, 10, 10⟩, some ⟨0, 0, 10, 10⟩⟩

/-- TRYON_BODY state whose composite image sits exactly at the upper scale
bound `MAX_SCALE = 2.5`, before baseline capture. -/
def c1State : AppState :=
  { baseState with mode := Mode.TRYON_BODY,
                   compositeImage := some ⟨⟨0, 0⟩, 0, 2.5⟩ }

/-- Body frame with shoulder width 100 (used as the calibration baseline). -/
def c1Meas1 : BodyMeasurement := ⟨100, ⟨0, 0⟩, 0, 0⟩

/-- Body frame with shoulder width 300 (three times the baseline). -/
def c1Meas2 : BodyMeasurement := ⟨300, ⟨0, 0⟩, 0, 0⟩

/-- TRYON_HAND state with the ROTATE tool active and no latch. -/
def c2State : AppState := { baseState with activeTool := Tool.ROTATE }

/-- TRYON_HAND state with the SCALE tool active and no latch. -/
def c3State : AppState := { baseState with activeTool := Tool.SCALE }

/-- State whose dwell toggle has already been consumed for the current hover. -/
def c5State : AppState :=
  { baseState with hoverTool := Tool.MOVE, hoverStart := some 40,
                   hoverConsumed := true }

/-- Degenerate key body points: both shoulder landmarks coincide at
`(50, 50)`, so the shoulder vector has length zero. -/
def c6KeyPoints : KeyBodyPoints :=
  ⟨⟨50, 0⟩, ⟨50, 50⟩, ⟨50, 50⟩, ⟨40, 200⟩, ⟨60, 200⟩⟩

/-- The measurement record produced by `c6KeyPoints`: shoulder width `0`,
chest center `(50, 50)`, shoulder angle `0`, torso height `50`. -/
def c6Meas : BodyMeasurement := ⟨0, ⟨50, 50⟩, 0, 50⟩

/-- Calibrated TRYON_BODY state (baseline width 100, scales seeded to 1)
whose composite image currently has rotation 45. -/
def c6State : AppState :=
  { baseState with mode := Mode.TRYON_BODY,
                   compositeImage := some ⟨⟨0, 0⟩, 45, 1⟩,
                   baseShoulderWidth := some 100,
                   smoothedScale := 1, originalScale := 1 }

/-- TRYON_BODY state before baseline capture (composite scale 1). -/
def c8SeedState : AppState := { baseState with mode := Mode.TRYON_BODY }

/-- Body frame with shoulder width 120, chest center `(30, 40)`, angle 7. -/
def c8Meas : BodyMeasurement := ⟨120, ⟨30, 40⟩, 7, 0⟩

/-- Calibrated TRYON_BODY state: baseline width 120, scales seeded to 1. -/
def c8NextState : AppState :=
  { baseState with mode := Mode.TRYON_BODY,
                   baseShoulderWidth := some 120,
                   smoothedScale := 1, originalScale := 1 }

/-- Body frame with shoulder width 240 (twice the 120 baseline). -/
def c8Meas2 : BodyMeasurement := ⟨240, ⟨10, 20⟩, 3, 0⟩

/-- Key body points with shoulders `(0,0)`-`(100,0)` and hips `(50,100)`,
`(50,200)`: the two hips have distinct `y`, exposing the `leftHip.y`
assignment. -/
def c10KeyPoints : KeyBodyPoints :=
  ⟨⟨0, 0⟩, ⟨0, 0⟩, ⟨100, 0⟩, ⟨50, 100⟩, ⟨50, 200⟩⟩

/-! ## General lemmas -/

lemma le_clamp (v lo hi : ℚ) (h : lo ≤ hi) : lo ≤ clamp v lo hi :=
  le_min (le_max_right v lo) h

lemma clamp_le (v lo hi : ℚ) : clamp v lo hi ≤ hi :=
  min_le_right _ _

lemma sqrt_eval {a b : ℝ} (hb : 0 ≤ b) (h : b ^ 2 = a) : Real.sqrt a = b := by
  rw [← h, Real.sqrt_sq hb]

/-- Tool execution never writes the hover bookkeeping, the active tool, or
the mode. -/
lemma executeActiveTool_hover_fields (s : AppState) (p : Position) (b : Bool) :
    (executeActiveTool s p b).hoverTool = s.hoverTool ∧
    (executeActiveTool s p b).hoverStart = s.hoverStart ∧
    (executeActiveTool s p b).hoverConsumed = s.hoverConsumed ∧
    (executeActiveTool s p b).activeTool = s.activeTool ∧
    (executeActiveTool s p b).mode = s.mode := by
  obtain ⟨m, d, c, fp, ip, atl, ht, hs, hcn, wp, rs, ss, bw, sm, os, bm⟩ := s
  cases d <;> cases c <;>
    · unfold executeActiveTool
      dsimp only
      split_ifs <;> simp

/-- Tool selection never writes the image transforms, the gesture latches,
the pinch memory, or the mode. -/
lemma handleToolSelection_images (btns : Buttons) (s : AppState) (pos : Position)
    (b : Bool) (now : ℚ) :
    (handleToolSelection btns s pos b now).design = s.design ∧
    (handleToolSelection btns s pos b now).compositeImage = s.compositeImage ∧
    (handleToolSelection btns s pos b now).rotationStart = s.rotationStart ∧
    (handleToolSelection btns s pos b now).scaleStart = s.scaleStart ∧
    (handleToolSelection btns s pos b now).wasPinching = s.wasPinching ∧
    (handleToolSelection btns s pos b now).mode = s.mode := by
  refine ⟨?_, ?_, ?_, ?_, ?_, ?_⟩ <;>
    · unfold handleToolSelection
      dsimp only
      repeat' (first | rfl | split)

/-- While pinching the hovered tool is `NONE`, so tool selection just clears
the hover bookkeeping. -/
lemma handleToolSelection_pinching (btns : Buttons) (s : AppState) (pos : Position) (now : ℚ) :
    handleToolSelection btns s pos true now =
      { s with hoverTool := Tool.NONE, hoverStart := none, hoverConsumed := false } := by
  simp [handleToolSelection, getHoveredTool]

/-! ## C5 — no-hand reset -/

/-- C5 (corrected): a "no hand detected" frame clears the cursor, the hovered
tool, the hover start time and both gesture latches, and preserves the active
tool and both image transforms — but it leaves the consumed flag unchanged
instead of resetting it. -/
theorem C5_noHand_reset (s : AppState) :
    (handleNoHand s).fingerPos = none ∧
    (handleNoHand s).isPinching = false ∧
    (handleNoHand s).hoverTool = Tool.NONE ∧
    (handleNoHand s).hoverStart = none ∧
    (handleNoHand s).rotationStart = none ∧
    (handleNoHand s).scaleStart = none ∧
    (handleNoHand s).hoverConsumed = s.hoverConsumed ∧
    (handleNoHand s).activeTool = s.activeTool ∧
    (handleNoHand s).design = s.design ∧
    (handleNoHand s).compositeImage = s.compositeImage := by
  refine ⟨rfl, rfl, rfl, rfl, rfl, rfl, rfl, rfl, rfl, rfl⟩

/-- C5 counterexample: in a state whose dwell toggle has been consumed,
processing a no-hand frame leaves `hoverConsumed` set, refuting "resets the
entire HoverState (… and the consumed flag) to its null/initial form". -/
theorem C5_counterexample : (handleNoHand c5State).hoverConsumed ≠ false := by
  simp [handleNoHand, c5State, baseState]

/-! ## C9 — hovered-tool resolution -/

/-- C9 (confirmed): `getHoveredTool` returns `NONE` whenever pinching, and
otherwise resolves the hitboxes in the fixed priority order MOVE, then
ROTATE, then SCALE — the first hitbox containing the point wins — returning
`NONE` when no hitbox contains the point.  (Being a function, it returns
exactly one tool per frame.) -/
theorem C9_hover_priority (btns : Buttons) (p : Position) :
    getHoveredTool btns p true = Tool.NONE ∧
    (isPointInElement p btns.moveBtn = true →
      getHoveredTool btns p false = Tool.MOVE) ∧
    (isPointInElement p btns.moveBtn = false →
      isPointInElement p btns.rotateBtn = true →
      getHoveredTool btns p false = Tool.ROTATE) ∧
    (isPointInElement p btns.moveBtn = false →
      isPointInElement p btns.rotateBtn = false →
      isPointInElement p btns.scaleBtn = true →
      getHoveredTool btns p false = Tool.SCALE) ∧
    (isPointInElement p btns.moveBtn = false →
      isPointInElement p btns.rotateBtn = false →
      isPointInElement p btns.scaleBtn = false →
      getHoveredTool btns p false = Tool.NONE) := by
  refine ⟨rfl, ?_, ?_, ?_, ?_⟩ <;> intros <;> simp [getHoveredTool, *]

/-- C9 witness: with all three hitboxes coinciding and the fingertip inside
them, the hovered tool is MOVE (the first in the priority order). -/
theorem C9_hover_priority_witness :
    getHoveredTool overlapBtns ⟨5, 5⟩ false = Tool.MOVE :=
  (C9_hover_priority overlapBtns ⟨5, 5⟩).2.1 (by norm_num [isPointInElement, overlapBtns])

/-! ## C2 — ROTATE latch -/

/-- C2 (corrected): with ROTATE active in TRYON_HAND mode, the first pinching
frame latches only the Y anchor (`rotationStartRef`) and leaves the composite
image untouched; every subsequent pinching frame adds
`(fingertip.y - anchorY) * ROTATION_SPEED` to the previous frame's rotation
while the anchor stays latched.  No rotation base is stored: the delta from
the anchor is accumulated onto `prev.rotation` each frame, which coincides
with `rotationBase + Δy * ROTATION_SPEED` on the second frame only. -/
theorem C2_rotate_accumulates (btns : Buttons) (s : AppState) (c : CompositeImage)
    (p : Position) (now : ℚ)
    (hm : s.mode = Mode.TRYON_HAND) (hc : s.compositeImage = some c)
    (ht : s.activeTool = Tool.ROTATE) :
    (s.rotationStart = none →
      (step btns s (Obs.hand p true now)).compositeImage = some c ∧
      (step btns s (Obs.hand p true now)).rotationStart = some p.y) ∧
    (∀ a, s.rotationStart = some a →
      (step btns s (Obs.hand p true now)).compositeImage =
        some { c with rotation := c.rotation + (p.y - a) * ROTATION_SPEED } ∧
      (step btns s (Obs.hand p true now)).rotationStart = some a) := by
  constructor
  · intro hr
    simp [step, handleHandDetected, handleToolSelection_pinching,
      executeActiveTool, applyToolTo, hm, hc, ht, hr]
  · intro a hr
    simp [step, handleHandDetected, handleToolSelection_pinching,
      executeActiveTool, applyToolTo, hm, hc, ht, hr]

/-- C2 witness: concrete first and second pinching ROTATE frames behaving as
`C2_rotate_accumulates` states. -/
theorem C2_witness :
    ((step noBtns c2State (Obs.hand ⟨3, 4⟩ true 50)).compositeImage = some ⟨⟨0, 0⟩, 0, 1⟩ ∧
      (step noBtns c2State (Obs.hand ⟨3, 4⟩ true 50)).rotationStart = some 4) ∧
    ((step noBtns { c2State with rotationStart := some 1 }
        (Obs.hand ⟨3, 4⟩ true 50)).compositeImage =
      some ⟨⟨0, 0⟩, 0 + (4 - 1) * ROTATION_SPEED, 1⟩) := by
  constructor
  · exact (C2_rotate_accumulates noBtns c2State ⟨⟨0, 0⟩, 0, 1⟩ ⟨3, 4⟩ 50 rfl rfl rfl).1 rfl
  · exact (((C2_rotate_accumulates noBtns { c2State with rotationStart := some 1 }
      ⟨⟨0, 0⟩, 0, 1⟩ ⟨3, 4⟩ 50 rfl rfl rfl).2 1) rfl).1

/-- C2 counterexample: from rotation 0, the three-frame ROTATE gesture at
fingertip heights 0, 10, 10 yields rotation 0.2, whereas the claimed formula
`rotationBase + (y₃ - anchorY) * ROTATION_SPEED` yields 0.1. -/
theorem C2_counterexample :
    (run noBtns c2State
        [Obs.hand ⟨0, 0⟩ true 10, Obs.hand ⟨0, 10⟩ true 20,
         Obs.hand ⟨0, 10⟩ true 30]).compositeImage = some ⟨⟨0, 0⟩, 1/5, 1⟩ ∧
    (1/5 : ℚ) ≠ 0 + (10 - 0) * ROTATION_SPEED := by
  constructor
  · norm_num [run, step, handleHandDetected, handleToolSelection, getHoveredTool,
      isPointInElement, executeActiveTool, applyToolTo, c2State, baseState, noBtns,
      ROTATION_SPEED]
  · norm_num [ROTATION_SPEED]

/-! ## C3 — SCALE latch -/

/-- C3 (corrected): with SCALE active in TRYON_HAND mode, the first pinching
frame latches only the X anchor (`scaleStartRef`) without changing the scale;
every subsequent pinching frame sets the scale to
`clamp(prev.scale + (fingertip.x - anchorX) * SCALE_SPEED, MIN_SCALE, MAX_SCALE)`
— accumulating onto the previous frame's scale, with no latched `scaleBase`.
The claim's two-frame scenario still holds: from scale 1.0, a pinch latched at
x = 500 followed by a frame at x = 1500 yields scale 1.1. -/
theorem C3_scale_accumulates :
    (∀ (btns : Buttons) (s : AppState) (c : CompositeImage) (p : Position) (now : ℚ),
      s.mode = Mode.TRYON_HAND → s.compositeImage = some c → s.activeTool = Tool.SCALE →
      (s.scaleStart = none →
        (step btns s (Obs.hand p true now)).compositeImage = some c ∧
        (step btns s (Obs.hand p true now)).scaleStart = some p.x) ∧
      (∀ a, s.scaleStart = some a →
        (step btns s (Obs.hand p true now)).compositeImage =
          some { c with scale := clamp (c.scale + (p.x - a) * SCALE_SPEED) MIN_SCALE MAX_SCALE } ∧
        (step btns s (Obs.hand p true now)).scaleStart = some a)) ∧
    (run noBtns c3State
        [Obs.hand ⟨500, 0⟩ true 10, Obs.hand ⟨1500, 0⟩ true 20]).compositeImage =
      some ⟨⟨0, 0⟩, 0, 1.1⟩ := by
  constructor
  · intro btns s c p now hm hc ht
    constructor
    · intro hr
      simp [step, handleHandDetected, handleToolSelection_pinching,
        executeActiveTool, applyToolTo, hm, hc, ht, hr]
    · intro a hr
      simp [step, handleHandDetected, handleToolSelection_pinching,
        executeActiveTool, applyToolTo, hm, hc, ht, hr]
  · norm_num [run, step, handleHandDetected, handleToolSelection, getHoveredTool,
      isPointInElement, executeActiveTool, applyToolTo, c3State, baseState, noBtns,
      SCALE_SPEED, clamp, MIN_SCALE, MAX_SCALE]

/-- C3 witness: concrete first and second pinching SCALE frames behaving as
`C3_scale_accumulates` states. -/
theorem C3_witness :
    ((step noBtns c3State (Obs.hand ⟨7, 2⟩ true 50)).compositeImage = some ⟨⟨0, 0⟩, 0, 1⟩ ∧
      (step noBtns c3State (Obs.hand ⟨7, 2⟩ true 50)).scaleStart = some 7) ∧
    ((step noBtns { c3State with scaleStart := some 2 }
        (Obs.hand ⟨7, 2⟩ true 50)).compositeImage =
      some ⟨⟨0, 0⟩, 0, clamp (1 + (7 - 2) * SCALE_SPEED) MIN_SCALE MAX_SCALE⟩) := by
  constructor
  · exact (C3_scale_accumulates.1 noBtns c3State ⟨⟨0, 0⟩, 0, 1⟩ ⟨7, 2⟩ 50 rfl rfl rfl).1 rfl
  · exact ((C3_scale_accumulates.1 noBtns { c3State with scaleStart := some 2 }
      ⟨⟨0, 0⟩, 0, 1⟩ ⟨7, 2⟩ 50 rfl rfl rfl).2 2 rfl).1

/-- C3 counterexample: from scale 1, the three-frame SCALE gesture at
fingertip x-positions 0, 100, 100 yields scale 1.02, whereas the claimed
formula `clamp(scaleBase + (x₃ - anchorX) * SCALE_SPEED, …)` yields 1.01. -/
theorem C3_counterexample :
    (run noBtns c3State
        [Obs.hand ⟨0, 0⟩ true 10, Obs.hand ⟨100, 0⟩ true 20,
         Obs.hand ⟨100, 0⟩ true 30]).compositeImage = some ⟨⟨0, 0⟩, 0, 51/50⟩ ∧
    (51/50 : ℚ) ≠ clamp (1 + (100 - 0) * SCALE_SPEED) MIN_SCALE MAX_SCALE := by
  constructor
  · norm_num [run, step, handleHandDetected, handleToolSelection, getHoveredTool,
      isPointInElement, executeActiveTool, applyToolTo, c3State, baseState, noBtns,
      SCALE_SPEED, clamp, MIN_SCALE, MAX_SCALE]
  · norm_num [clamp, SCALE_SPEED, MIN_SCALE, MAX_SCALE]

/-! ## C1 — scale bounds -/

lemma MIN_le_MAX : MIN_SCALE ≤ MAX_SCALE := by norm_num [MIN_SCALE, MAX_SCALE]

/-- A tool application leaves an in-bounds scale in bounds: MOVE and ROTATE
do not touch it, and SCALE writes a clamped value. -/
lemma applyToolTo_scale_bounds (tool : Tool) (pos : Position) (img : CompositeImage)
    (r sc : Option ℚ) (h1 : MIN_SCALE ≤ img.scale) (h2 : img.scale ≤ MAX_SCALE) :
    MIN_SCALE ≤ (applyToolTo tool pos img r sc).1.scale ∧
      (applyToolTo tool pos img r sc).1.scale ≤ MAX_SCALE := by
  cases tool <;> cases r <;> cases sc <;>
    simp only [applyToolTo] <;>
    first
      | exact ⟨h1, h2⟩
      | exact ⟨le_clamp _ _ _ MIN_le_MAX, clamp_le _ _ _⟩

/-- Each image held after tool execution is either the image held before or
the result of one `applyToolTo` application to it. -/
lemma executeActiveTool_design_cases (s : AppState) (p : Position) (b : Bool) :
    ((executeActiveTool s p b).design = s.design ∨
      ∃ d r sc, s.design = some d ∧
        (executeActiveTool s p b).design = some (applyToolTo s.activeTool p d r sc).1) ∧
    ((executeActiveTool s p b).compositeImage = s.compositeImage ∨
      ∃ c r sc, s.compositeImage = some c ∧
        (executeActiveTool s p b).compositeImage = some (applyToolTo s.activeTool p c r sc).1) := by
  obtain ⟨m, d, c, fp, ip, atl, ht, hs, hcn, wp, rs, ss, bw, sm, os, bm⟩ := s
  cases d <;> cases c <;> cases m <;> cases b <;> cases wp <;>
    · unfold executeActiveTool
      dsimp only
      exact ⟨by first | exact Or.inl rfl | exact Or.inr ⟨_, _, _, rfl, rfl⟩,
             by first | exact Or.inl rfl | exact Or.inr ⟨_, _, _, rfl, rfl⟩⟩

/-- Processing a hand or no-hand observation keeps both scales in bounds. -/
lemma step_scalesInBounds (btns : Buttons) (s : AppState) (o : Obs)
    (ho : o.isBodyObs = false) (h : scalesInBounds s) :
    scalesInBounds (step btns s o) := by
  cases o with
  | body m => simp [Obs.isBodyObs] at ho
  | noHand =>
    exact ⟨fun c hc => h.1 c hc, fun c hc => h.2 c hc⟩
  | hand pos pinch now =>
    show scalesInBounds (executeActiveTool (handleToolSelection btns _ pos pinch now) pos pinch)
    set s1 := { s with fingerPos := some pos, isPinching := pinch } with hs1
    set s2 := handleToolSelection btns s1 pos pinch now with hs2
    have himg := handleToolSelection_images btns s1 pos pinch now
    have hb2 : scalesInBounds s2 := by
      refine ⟨?_, ?_⟩
      · rw [← hs2] at himg
        rw [himg.1]
        exact h.1
      · rw [← hs2] at himg
        rw [himg.2.1]
        exact h.2
    have hcases := executeActiveTool_design_cases s2 pos pinch
    refine ⟨?_, ?_⟩
    · rcases hcases.1 with heq | ⟨d, r, sc, hd, heq⟩
      · rw [heq]; exact hb2.1
      · rw [heq]
        intro c hc
        obtain rfl : (applyToolTo s2.activeTool pos d r sc).1 = c := by
          injection hc
        exact applyToolTo_scale_bounds _ _ _ _ _ (hb2.1 d hd).1 (hb2.1 d hd).2
    · rcases hcases.2 with heq | ⟨d, r, sc, hd, heq⟩
      · rw [heq]; exact hb2.2
      · rw [heq]
        intro c hc
        obtain rfl : (applyToolTo s2.activeTool pos d r sc).1 = c := by
          injection hc
        exact applyToolTo_scale_bounds _ _ _ _ _ (hb2.2 d hd).1 (hb2.2 d hd).2

/-- C1 (corrected): over any sequence of hand and no-hand observations —
in particular over every SCALE-tool gesture — both image scales stay within
`[MIN_SCALE, MAX_SCALE]`, because the SCALE tool clamps at its write site.
The original claim fails for the body-mode auto-calibrator, which clamps only
the shoulder-width ratio (to `[0.5, 3.0]`) and writes the unclamped smoothed
scale (see `C1_counterexample`). -/
theorem C1_scale_clamped (btns : Buttons) (s : AppState) (l : List Obs)
    (hl : ∀ o ∈ l, o.isBodyObs = false) (h : scalesInBounds s) :
    scalesInBounds (run btns s l) := by
  induction l generalizing s with
  | nil => exact h
  | cons o t ih =>
    have hstep : run btns s (o :: t) = run btns (step btns s o) t := rfl
    rw [hstep]
    exact ih (step btns s o)
      (fun o' ho' => hl o' (List.mem_cons_of_mem o ho'))
      (step_scalesInBounds btns s o (hl o (List.mem_cons_self o t)) h)

/-- C1 witness: a concrete pinch-move frame followed by a no-hand frame keeps
the unit-scale composite image in bounds. -/
theorem C1_witness :
    scalesInBounds (run noBtns baseState [Obs.hand ⟨3, 4⟩ true 7, Obs.noHand]) := by
  refine C1_scale_clamped noBtns baseState _ (by simp [Obs.isBodyObs]) ⟨?_, ?_⟩
  · intro c hc
    simp [baseState] at hc
  · intro c hc
    simp only [baseState] at hc
    obtain rfl : (⟨⟨0, 0⟩, 0, 1⟩ : CompositeImage) = c := by injection hc
    norm_num [MIN_SCALE, MAX_SCALE]

/-- C1 counterexample: starting from an in-bounds composite scale of 2.5
(`= MAX_SCALE`), two body frames (baseline shoulder width 100, then width
300) drive the scale to 3.5 > MAX_SCALE: the auto-calibrator write site does
not clamp the scale into `[MIN_SCALE, MAX_SCALE]`. -/
theorem C1_counterexample :
    scalesInBounds c1State ∧
    (run noBtns c1State [Obs.body c1Meas1, Obs.body c1Meas2]).compositeImage =
      some ⟨⟨0, 100⟩, 0, 7/2⟩ ∧
    ¬((7/2 : ℚ) ≤ MAX_SCALE) := by
  refine ⟨⟨?_, ?_⟩, ?_, ?_⟩
  · intro c hc
    simp [c1State, baseState] at hc
  · intro c hc
    simp only [c1State, baseState] at hc
    obtain rfl : (⟨⟨0, 0⟩, 0, 2.5⟩ : CompositeImage) = c := by injection hc
    norm_num [MIN_SCALE, MAX_SCALE]
  · have h1 : handlePoseDetected c1State c1Meas1 =
        { c1State with compositeImage := some ⟨⟨0, 100⟩, 0, 5/2⟩,
                       baseShoulderWidth := some 100,
                       smoothedScale := 5/2, originalScale := 5/2,
                       bodyMeasurements := some c1Meas1 } := by
      simp [handlePoseDetected, captureBaselineEffect, autoPositionEffect,
        c1State, baseState, c1Meas1, clamp]
      norm_num
    have hrun : run noBtns c1State [Obs.body c1Meas1, Obs.body c1Meas2] =
        handlePoseDetected (handlePoseDetected c1State c1Meas1) c1Meas2 := rfl
    rw [hrun, h1]
    simp [handlePoseDetected, captureBaselineEffect, autoPositionEffect,
      c1State, baseState, c1Meas2, clamp]
    norm_num
  · norm_num [MAX_SCALE]

/-! ## C6 — degenerate geometry -/

/-- C6 (code bug): a degenerate body frame is not skipped.  With both
shoulder landmarks at `(50, 50)` the measurement pipeline yields shoulder
width 0, shoulder angle 0 and chest center `(50, 50)`; feeding that frame to
a calibrated TRYON_BODY state (baseline width 100) overwrites the transform —
rotation 45 becomes 0, the position moves to `(50, 150)`, and the scale is
smoothed toward `0.5 · originalScale` — instead of retaining the previous
values as the spec requires. -/
theorem C6_degenerate_frame_updates_transform :
    (calculateBodyMeasurements c6KeyPoints).1.shoulderWidth = 0 ∧
    (calculateBodyMeasurements c6KeyPoints).1.shoulderAngle = 0 ∧
    (calculateBodyMeasurements c6KeyPoints).1.chestCenter.x = 50 ∧
    (calculateBodyMeasurements c6KeyPoints).1.chestCenter.y = 50 ∧
    (handlePoseDetected c6State c6Meas).compositeImage = some ⟨⟨50, 150⟩, 0, 9/10⟩ ∧
    c6State.compositeImage = some ⟨⟨0, 0⟩, 45, 1⟩ ∧
    (handlePoseDetected c6State c6Meas).compositeImage ≠ c6State.compositeImage := by
  have h6 : (handlePoseDetected c6State c6Meas).compositeImage =
      some ⟨⟨50, 150⟩, 0, 9/10⟩ := by
    simp [handlePoseDetected, captureBaselineEffect, autoPositionEffect,
      c6State, baseState, c6Meas, clamp]
    try norm_num
  refine ⟨?_, ?_, by norm_num [calculateBodyMeasurements, c6KeyPoints],
    by norm_num [calculateBodyMeasurements, c6KeyPoints], h6, rfl, ?_⟩
  · show Real.sqrt (((50:ℝ) - 50) ^ 2 + ((50:ℝ) - 50) ^ 2) = 0
    rw [sqrt_eval le_rfl (by norm_num)]
  · show atan2 ((50:ℝ) - 50) ((50:ℝ) - 50) * (180 / Real.pi) = 0
    have h0 : ((50:ℝ) - 50) = 0 := by norm_num
    rw [h0]
    have harg : atan2 (0:ℝ) (0:ℝ) = 0 := by
      show Complex.arg ⟨0, 0⟩ = 0
      have : (⟨0, 0⟩ : Complex) = 0 := rfl
      rw [this, Complex.arg_zero]
    rw [harg, zero_mul]
  · rw [h6]
    show _ ≠ some (⟨⟨0, 0⟩, 45, 1⟩ : CompositeImage)
    simp only [Option.some.injEq, CompositeImage.mk.injEq, Position.mk.injEq, ne_eq]
    norm_num

/-! ## C8 — body-mode update rule -/

/-- C8 (confirmed): on the first valid body frame the baseline is captured
(base shoulder width latched, original and smoothed scale seeded from the
composite's scale, which that frame's own update then leaves unchanged); on
every later body frame the transform is set to chest center offset vertically
by 100, rotation to the shoulder angle, and scale to the EMA step
`smoothed + (scale0 · clamp(shoulderWidth / shoulderWidth0, 0.5, 3.0) - smoothed) · 0.2`. -/
theorem C8_body_update :
    (∀ (s : AppState) (m : BodyMeasurement) (c : CompositeImage),
      s.mode = Mode.TRYON_BODY → s.baseShoulderWidth = none →
      s.compositeImage = some c → 0 < m.shoulderWidth →
      (handlePoseDetected s m).baseShoulderWidth = some m.shoulderWidth ∧
      (handlePoseDetected s m).originalScale = c.scale ∧
      (handlePoseDetected s m).smoothedScale = c.scale ∧
      (handlePoseDetected s m).compositeImage =
        some ⟨⟨m.chestCenter.x, m.chestCenter.y + 100⟩, m.shoulderAngle, c.scale⟩) ∧
    (∀ (s : AppState) (m : BodyMeasurement) (c : CompositeImage) (w0 : ℚ),
      s.mode = Mode.TRYON_BODY → s.baseShoulderWidth = some w0 →
      s.compositeImage = some c → 0 < w0 →
      (handlePoseDetected s m).smoothedScale =
        s.smoothedScale +
          (s.originalScale * clamp (m.shoulderWidth / w0) 0.5 3.0 - s.smoothedScale) * 0.2 ∧
      (handlePoseDetected s m).compositeImage =
        some ⟨⟨m.chestCenter.x, m.chestCenter.y + 100⟩, m.shoulderAngle,
          s.smoothedScale +
            (s.originalScale * clamp (m.shoulderWidth / w0) 0.5 3.0 - s.smoothedScale) * 0.2⟩) := by
  constructor
  · intro s m c hm hb hc hw
    have hdiv : m.shoulderWidth / m.shoulderWidth = 1 := div_self (ne_of_gt hw)
    have hclamp : clamp (1 : ℚ) 0.5 3.0 = 1 := by norm_num [clamp]
    simp [handlePoseDetected, captureBaselineEffect, autoPositionEffect,
      hm, hb, hc, hdiv, hclamp]
  · intro s m c w0 hm hb hc hw
    simp [handlePoseDetected, captureBaselineEffect, autoPositionEffect, hm, hb, hc]

/-- C8 witness: concrete baseline-capture and follow-up frames.  The capture
frame (width 120) latches the baseline and leaves the transform scale at 1;
the follow-up frame (width 240, twice the baseline) moves the smoothed scale
to 1.2. -/
theorem C8_witness :
    ((handlePoseDetected c8SeedState c8Meas).baseShoulderWidth = some 120 ∧
      (handlePoseDetected c8SeedState c8Meas).smoothedScale = 1 ∧
      (handlePoseDetected c8SeedState c8Meas).compositeImage =
        some ⟨⟨30, 140⟩, 7, 1⟩) ∧
    ((handlePoseDetected c8NextState c8Meas2).smoothedScale = 6/5 ∧
      (handlePoseDetected c8NextState c8Meas2).compositeImage =
        some ⟨⟨10, 120⟩, 3, 6/5⟩) := by
  have h1 := C8_body_update.1 c8SeedState c8Meas ⟨⟨0, 0⟩, 0, 1⟩ rfl rfl rfl
    (by norm_num [c8Meas])
  have h2 := C8_body_update.2 c8NextState c8Meas2 ⟨⟨0, 0⟩, 0, 1⟩ 120 rfl rfl rfl
    (by norm_num)
  have hval : c8NextState.smoothedScale +
      (c8NextState.originalScale * clamp (c8Meas2.shoulderWidth / 120) 0.5 3.0 -
        c8NextState.smoothedScale) * 0.2 = 6/5 := by
    norm_num [c8NextState, baseState, c8Meas2, clamp]
  refine ⟨⟨h1.1, h1.2.2.1, ?_⟩, ?_, ?_⟩
  · rw [h1.2.2.2]
    norm_num [c8Meas]
  · rw [h2.1, hval]
  · rw [h2.2, hval]
    norm_num [c8Meas2]

/-! ## C10 — purity of calculateBodyMeasurements -/

/-- C10 (code bug): evaluated at `c10KeyPoints`, the call mutates its
argument — `leftHip` ends as `(50, 200)` although it was `(50, 100)` — and
returns torso height 100, whereas the Euclidean distance from the computed
chest center to the midpoint of the two (original) hips is 150. -/
theorem C10_measurements_mutation :
    (calculateBodyMeasurements c10KeyPoints).2.leftHip.x = 50 ∧
    (calculateBodyMeasurements c10KeyPoints).2.leftHip.y = 200 ∧
    c10KeyPoints.leftHip.y = 100 ∧
    (calculateBodyMeasurements c10KeyPoints).1.torsoHeight = 100 ∧
    hypot ((calculateBodyMeasurements c10KeyPoints).1.chestCenter.x -
        (c10KeyPoints.leftHip.x + c10KeyPoints.rightHip.x) / 2)
      ((calculateBodyMeasurements c10KeyPoints).1.chestCenter.y -
        (c10KeyPoints.leftHip.y + c10KeyPoints.rightHip.y) / 2) = 150 ∧
    (100 : ℝ) ≠ 150 := by
  refine ⟨rfl, rfl, rfl, ?_, ?_, by norm_num⟩
  · show Real.sqrt ((((0:ℝ) + 100) / 2 - (50 + 50) / 2) ^ 2 +
      (((0:ℝ) + 0) / 2 - 200 / 2) ^ 2) = 100
    exact sqrt_eval (by norm_num) (by norm_num)
  · show Real.sqrt ((((0:ℝ) + 100) / 2 - (50 + 50) / 2) ^ 2 +
      (((0:ℝ) + 0) / 2 - (100 + 200) / 2) ^ 2) = 150
    exact sqrt_eval (by norm_num) (by norm_num)

/-! ## C4 / C7 — hover-dwell selection -/

lemma toggleTool_ne {T : Tool} (a : Tool) (hT : T ≠ Tool.NONE) : toggleTool a T ≠ a := by
  unfold toggleTool
  split
  · rename_i h
    rw [h]
    exact fun hh => hT hh.symm
  · rename_i h
    exact fun hh => h hh.symm

lemma handleToolSelection_new (btns : Buttons) (s : AppState) (p : Position) (now : ℚ)
    {T : Tool} (hT : T ≠ Tool.NONE) (hhov : getHoveredTool btns p false = T)
    (h : s.hoverTool ≠ T) :
    handleToolSelection btns s p false now =
      { s with hoverTool := T, hoverStart := some now, hoverConsumed := false } := by
  unfold handleToolSelection
  dsimp only
  rw [hhov, if_neg hT, if_pos h]

lemma handleToolSelection_same (btns : Buttons) (s : AppState) (p : Position) (now : ℚ)
    {T : Tool} (t1 : ℚ) (hT : T ≠ Tool.NONE) (hhov : getHoveredTool btns p false = T)
    (h1 : s.hoverTool = T) (h2 : s.hoverStart = some t1) :
    handleToolSelection btns s p false now =
      if s.hoverConsumed = false ∧ t1 ≠ 0 ∧ now - t1 > DWELL_TIME then
        { s with activeTool := toggleTool s.activeTool T, hoverConsumed := true }
      else s := by
  unfold handleToolSelection toggleTool
  dsimp only
  rw [hhov, if_neg hT, if_neg (by rw [h1]; exact fun hh => hh rfl), h2]

lemma executeActiveTool_hoverTool (s : AppState) (p : Position) (b : Bool) :
    (executeActiveTool s p b).hoverTool = s.hoverTool :=
  (executeActiveTool_hover_fields s p b).1

lemma executeActiveTool_hoverStart (s : AppState) (p : Position) (b : Bool) :
    (executeActiveTool s p b).hoverStart = s.hoverStart :=
  (executeActiveTool_hover_fields s p b).2.1

lemma executeActiveTool_hoverConsumed (s : AppState) (p : Position) (b : Bool) :
    (executeActiveTool s p b).hoverConsumed = s.hoverConsumed :=
  (executeActiveTool_hover_fields s p b).2.2.1

lemma executeActiveTool_activeTool (s : AppState) (p : Position) (b : Bool) :
    (executeActiveTool s p b).activeTool = s.activeTool :=
  (executeActiveTool_hover_fields s p b).2.2.2.1

lemma hover_step_new (btns : Buttons) {T : Tool} (p : Position) (now : ℚ)
    (hT : T ≠ Tool.NONE) (hhov : getHoveredTool btns p false = T)
    (s : AppState) (h : s.hoverTool ≠ T) :
    HoverInv T now s.activeTool false (step btns s (Obs.hand p false now)) := by
  show HoverInv T now s.activeTool false
    (executeActiveTool (handleToolSelection btns
      { s with fingerPos := some p, isPinching := false } p false now) p false)
  rw [handleToolSelection_new btns { s with fingerPos := some p, isPinching := false }
    p now hT hhov h]
  refine ⟨?_, ?_, ?_, ?_⟩
  · rw [executeActiveTool_hoverTool]
  · rw [executeActiveTool_hoverStart]
  · rw [executeActiveTool_hoverConsumed]
  · rw [executeActiveTool_activeTool]

lemma hover_step_cases (btns : Buttons) {T : Tool} (p : Position) (now t1 : ℚ)
    (a : Tool) (consumed : Bool)
    (hT : T ≠ Tool.NONE) (hhov : getHoveredTool btns p false = T)
    (s : AppState) (h : HoverInv T t1 a consumed s) :
    (¬(consumed = false ∧ t1 ≠ 0 ∧ now - t1 > DWELL_TIME) →
      HoverInv T t1 a consumed (step btns s (Obs.hand p false now))) ∧
    ((consumed = false ∧ t1 ≠ 0 ∧ now - t1 > DWELL_TIME) →
      HoverInv T t1 (toggleTool a T) true (step btns s (Obs.hand p false now))) := by
  obtain ⟨h1, h2, h3, h4⟩ := h
  have hsel := handleToolSelection_same btns
    { s with fingerPos := some p, isPinching := false } p now t1 hT hhov h1 h2
  constructor
  · intro hcond
    have hcond' : ¬(({ s with fingerPos := some p, isPinching := false } : AppState).hoverConsumed = false ∧ t1 ≠ 0 ∧ now - t1 > DWELL_TIME) := by
      rw [show ({ s with fingerPos := some p, isPinching := false } : AppState).hoverConsumed = consumed from h3]
      exact hcond
    show HoverInv T t1 a consumed
      (executeActiveTool (handleToolSelection btns
        { s with fingerPos := some p, isPinching := false } p false now) p false)
    rw [hsel, if_neg hcond']
    refine ⟨?_, ?_, ?_, ?_⟩
    · rw [executeActiveTool_hoverTool]
      exact h1
    · rw [executeActiveTool_hoverStart]
      exact h2
    · rw [executeActiveTool_hoverConsumed]
      exact h3
    · rw [executeActiveTool_activeTool]
      exact h4
  · intro hcond
    have hcond' : (({ s with fingerPos := some p, isPinching := false } : AppState).hoverConsumed = false ∧ t1 ≠ 0 ∧ now - t1 > DWELL_TIME) := by
      rw [show ({ s with fingerPos := some p, isPinching := false } : AppState).hoverConsumed = consumed from h3]
      exact hcond
    show HoverInv T t1 (toggleTool a T) true
      (executeActiveTool (handleToolSelection btns
        { s with fingerPos := some p, isPinching := false } p false now) p false)
    rw [hsel, if_pos hcond']
    refine ⟨?_, ?_, ?_, ?_⟩
    · rw [executeActiveTool_hoverTool]
      exact h1
    · rw [executeActiveTool_hoverStart]
      exact h2
    · rw [executeActiveTool_hoverConsumed]
    · rw [executeActiveTool_activeTool]
      show toggleTool s.activeTool T = toggleTool a T
      rw [h4]



lemma runCount_cons (btns : Buttons) (s : AppState) (c : ℕ) (tm : ℚ) (p : Position)
    (t : List (ℚ × Position)) :
    runCount btns (s, c) (hoverObs ((tm, p) :: t)) =
      runCount btns (step btns s (Obs.hand p false tm),
        c + (if (step btns s (Obs.hand p false tm)).activeTool = s.activeTool then 0 else 1))
        (hoverObs t) := rfl

lemma hoverRun_consumed (btns : Buttons) {T : Tool} (t1 : ℚ) (a : Tool)
    (hT : T ≠ Tool.NONE) :
    ∀ (l : List (ℚ × Position)), (∀ f ∈ l, getHoveredTool btns f.2 false = T) →
    ∀ (s : AppState) (c : ℕ), HoverInv T t1 a true s →
    HoverInv T t1 a true (runCount btns (s, c) (hoverObs l)).1 ∧
      (runCount btns (s, c) (hoverObs l)).2 = c := by
  intro l
  induction l with
  | nil =>
    intro _ s c h
    exact ⟨h, rfl⟩
  | cons f t ih =>
    obtain ⟨tm, p⟩ := f
    intro hhov s c h
    have hf := hhov (tm, p) (List.mem_cons_self (tm, p) t)
    have hstep := (hover_step_cases btns p tm t1 a true hT hf s h).1 (by simp)
    have hact : (step btns s (Obs.hand p false tm)).activeTool = s.activeTool := by
      rw [hstep.2.2.2, h.2.2.2]
    rw [runCount_cons, if_pos hact, Nat.add_zero]
    exact ih (fun f' hf' => hhov f' (List.mem_cons_of_mem (tm, p) hf')) _ _ hstep

lemma hoverRun_within (btns : Buttons) {T : Tool} (t1 : ℚ) (a : Tool)
    (hT : T ≠ Tool.NONE) :
    ∀ (l : List (ℚ × Position)), (∀ f ∈ l, getHoveredTool btns f.2 false = T) →
    (∀ f ∈ l, f.1 ≤ t1 + DWELL_TIME) →
    ∀ (s : AppState) (c : ℕ), HoverInv T t1 a false s →
    HoverInv T t1 a false (runCount btns (s, c) (hoverObs l)).1 ∧
      (runCount btns (s, c) (hoverObs l)).2 = c := by
  intro l
  induction l with
  | nil =>
    intro _ _ s c h
    exact ⟨h, rfl⟩
  | cons f t ih =>
    obtain ⟨tm, p⟩ := f
    intro hhov hle s c h
    have hf := hhov (tm, p) (List.mem_cons_self (tm, p) t)
    have htm : tm ≤ t1 + DWELL_TIME := hle (tm, p) (List.mem_cons_self (tm, p) t)
    have hstep := (hover_step_cases btns p tm t1 a false hT hf s h).1
      (by
        rintro ⟨-, -, hgt⟩
        have : DWELL_TIME < tm - t1 := hgt
        linarith)
    have hact : (step btns s (Obs.hand p false tm)).activeTool = s.activeTool := by
      rw [hstep.2.2.2, h.2.2.2]
    rw [runCount_cons, if_pos hact, Nat.add_zero]
    exact ih (fun f' hf' => hhov f' (List.mem_cons_of_mem (tm, p) hf'))
      (fun f' hf' => hle f' (List.mem_cons_of_mem (tm, p) hf')) _ _ hstep

lemma hoverRun_fire (btns : Buttons) {T : Tool} (t1 : ℚ) (a : Tool)
    (hT : T ≠ Tool.NONE) (ht1 : t1 ≠ 0) :
    ∀ (l : List (ℚ × Position)), (∀ f ∈ l, getHoveredTool btns f.2 false = T) →
    (∃ f ∈ l, t1 + DWELL_TIME < f.1) →
    ∀ (s : AppState) (c : ℕ), HoverInv T t1 a false s →
    HoverInv T t1 (toggleTool a T) true (runCount btns (s, c) (hoverObs l)).1 ∧
      (runCount btns (s, c) (hoverObs l)).2 = c + 1 := by
  intro l
  induction l with
  | nil =>
    intro _ hex
    exact absurd hex (by simp)
  | cons f t ih =>
    obtain ⟨tm, p⟩ := f
    intro hhov hex s c h
    have hf := hhov (tm, p) (List.mem_cons_self (tm, p) t)
    by_cases hf1 : t1 + DWELL_TIME < tm
    · have hstep := (hover_step_cases btns p tm t1 a false hT hf s h).2
        ⟨rfl, ht1, by show DWELL_TIME < tm - t1; linarith⟩
      have hact : ¬((step btns s (Obs.hand p false tm)).activeTool = s.activeTool) := by
        rw [hstep.2.2.2, h.2.2.2]
        exact toggleTool_ne a hT
      rw [runCount_cons, if_neg hact]
      exact hoverRun_consumed btns t1 (toggleTool a T) hT t
        (fun f' hf' => hhov f' (List.mem_cons_of_mem (tm, p) hf')) _ _ hstep
    · have hstep := (hover_step_cases btns p tm t1 a false hT hf s h).1
        (by
          rintro ⟨-, -, hgt⟩
          exact hf1 (by
            have : DWELL_TIME < tm - t1 := hgt
            linarith))
      have hact : (step btns s (Obs.hand p false tm)).activeTool = s.activeTool := by
        rw [hstep.2.2.2, h.2.2.2]
      rw [runCount_cons, if_pos hact, Nat.add_zero]
      have hex' : ∃ f' ∈ t, t1 + DWELL_TIME < f'.1 := by
        rcases hex with ⟨f', hf', hgt⟩
        rcases List.mem_cons.mp hf' with heq | hmem
        · rw [heq] at hgt
          exact absurd hgt hf1
        · exact ⟨f', hmem, hgt⟩
      exact ih (fun f' hf' => hhov f' (List.mem_cons_of_mem (tm, p) hf')) hex' _ _ hstep

/-- C4 (corrected): for an unbroken hover over a single tool button (every
frame not pinching and resolving to the same hovered tool `T`, hover freshly
established on the first frame at time `t1 > 0`): if every later frame falls
within `t1 + DWELL_TIME` (elapsed time `≤ DWELL_TIME`), the active tool never
changes; as soon as some frame comes strictly after `t1 + DWELL_TIME`, the
active tool is toggled exactly once during the hover (to `NONE` if the hovered
tool was active, to the hovered tool otherwise), with no second toggle while
the hover continues.  The original claim's "t ≥ DWELL_TIME" boundary fails:
the code requires strictly more than DWELL_TIME elapsed
(see `C4_counterexample`). -/
theorem C4_dwell_toggle (btns : Buttons) {T : Tool} (s0 : AppState)
    (t1 : ℚ) (p1 : Position) (rest : List (ℚ × Position))
    (hT : T ≠ Tool.NONE) (h0 : s0.hoverTool ≠ T) (ht1 : 0 < t1)
    (hhov1 : getHoveredTool btns p1 false = T)
    (hhov : ∀ f ∈ rest, getHoveredTool btns f.2 false = T) :
    ((∀ f ∈ rest, f.1 ≤ t1 + DWELL_TIME) →
      (runCount btns (s0, 0) (hoverObs ((t1, p1) :: rest))).1.activeTool = s0.activeTool ∧
      (runCount btns (s0, 0) (hoverObs ((t1, p1) :: rest))).2 = 0) ∧
    ((∃ f ∈ rest, t1 + DWELL_TIME < f.1) →
      (runCount btns (s0, 0) (hoverObs ((t1, p1) :: rest))).1.activeTool =
        toggleTool s0.activeTool T ∧
      (runCount btns (s0, 0) (hoverObs ((t1, p1) :: rest))).2 = 1) := by
  have hinv1 := hover_step_new btns p1 t1 hT hhov1 s0 h0
  have hact1 : (step btns s0 (Obs.hand p1 false t1)).activeTool = s0.activeTool :=
    hinv1.2.2.2
  have hrw : runCount btns (s0, 0) (hoverObs ((t1, p1) :: rest)) =
      runCount btns (step btns s0 (Obs.hand p1 false t1), 0) (hoverObs rest) := by
    rw [runCount_cons, if_pos hact1]
  constructor
  · intro hle
    rw [hrw]
    have hres := hoverRun_within btns t1 s0.activeTool hT rest hhov hle _ 0 hinv1
    exact ⟨hres.1.2.2.2, hres.2⟩
  · intro hex
    rw [hrw]
    have hres := hoverRun_fire btns t1 s0.activeTool hT (ne_of_gt ht1) rest hhov hex _ 0 hinv1
    exact ⟨hres.1.2.2.2, hres.2⟩

/-- C4 witness: hovering the MOVE button at times 100 and 601 (elapsed
501 > DWELL_TIME) toggles the active tool to MOVE, exactly once. -/
theorem C4_witness :
    (runCount toolbarBtns (baseState, 0)
        (hoverObs [(100, ⟨150, 120⟩), (601, ⟨150, 120⟩)])).1.activeTool = Tool.MOVE ∧
    (runCount toolbarBtns (baseState, 0)
        (hoverObs [(100, ⟨150, 120⟩), (601, ⟨150, 120⟩)])).2 = 1 := by
  have h := (C4_dwell_toggle toolbarBtns (T := Tool.MOVE) baseState 100 ⟨150, 120⟩
      [(601, ⟨150, 120⟩)]
      (by simp) (by simp [baseState]) (by norm_num)
      (by norm_num [getHoveredTool, isPointInElement, toolbarBtns])
      (by
        intro f hf
        simp only [List.mem_singleton] at hf
        rw [hf]
        norm_num [getHoveredTool, isPointInElement, toolbarBtns])).2
    ⟨(601, ⟨150, 120⟩), by simp, by norm_num [DWELL_TIME]⟩
  refine ⟨?_, h.2⟩
  rw [h.1]
  rfl

/-- C4 counterexample: a hover lasting exactly DWELL_TIME (frames at times
100 and 600, so t = 500 ≥ DWELL_TIME) produces no toggle, refuting
"t ≥ DWELL_TIME ⟹ toggled exactly once": the code's dwell test is strict. -/
theorem C4_counterexample :
    (600 : ℚ) - 100 = DWELL_TIME ∧
    (runCount toolbarBtns (baseState, 0)
        (hoverObs [(100, ⟨150, 120⟩), (600, ⟨150, 120⟩)])).1.activeTool = Tool.NONE ∧
    (runCount toolbarBtns (baseState, 0)
        (hoverObs [(100, ⟨150, 120⟩), (600, ⟨150, 120⟩)])).2 = 0 := by
  have hhovA : getHoveredTool toolbarBtns ⟨150, 120⟩ false = Tool.MOVE := by
    norm_num [getHoveredTool, isPointInElement, toolbarBtns]
  have hT : Tool.MOVE ≠ Tool.NONE := by simp
  have hinv1 := hover_step_new toolbarBtns ⟨150, 120⟩ 100 hT hhovA baseState
    (by simp [baseState])
  have hstep2 := (hover_step_cases toolbarBtns ⟨150, 120⟩ 600 100 baseState.activeTool
      false hT hhovA _ hinv1).1
    (by
      rintro ⟨-, -, hgt⟩
      have hgt' : DWELL_TIME < (600 : ℚ) - 100 := hgt
      norm_num [DWELL_TIME] at hgt')
  have hact1 : (step toolbarBtns baseState (Obs.hand ⟨150, 120⟩ false 100)).activeTool
      = baseState.activeTool := hinv1.2.2.2
  have hact2 : (step toolbarBtns
        (step toolbarBtns baseState (Obs.hand ⟨150, 120⟩ false 100))
        (Obs.hand ⟨150, 120⟩ false 600)).activeTool
      = (step toolbarBtns baseState (Obs.hand ⟨150, 120⟩ false 100)).activeTool := by
    rw [hstep2.2.2.2, hinv1.2.2.2]
  refine ⟨by norm_num [DWELL_TIME], ?_, ?_⟩
  · show (runCount toolbarBtns (baseState, 0)
      (hoverObs [(100, ⟨150, 120⟩), (600, ⟨150, 120⟩)])).1.activeTool = Tool.NONE
    rw [runCount_cons, if_pos hact1, Nat.add_zero, runCount_cons, if_pos hact2,
      Nat.add_zero]
    show (step toolbarBtns (step toolbarBtns baseState (Obs.hand ⟨150, 120⟩ false 100))
      (Obs.hand ⟨150, 120⟩ false 600)).activeTool = Tool.NONE
    rw [hstep2.2.2.2]
    rfl
  · rw [runCount_cons, if_pos hact1, Nat.add_zero, runCount_cons, if_pos hact2,
      Nat.add_zero]
    rfl

/-- C7 (confirmed): (1) whenever the hovered tool changes to a button `T`,
the frame re-latches the dwell start to the current time, clears the consumed
flag and leaves the active tool unchanged; (2) while the hovered tool and the
latched start `t1` persist, a frame at time `now` with `now - t1 ≤ DWELL_TIME`
changes neither the hover bookkeeping nor the active tool; (3) in the claim's
scenario — button A hovered at 100..400 (300 ms), button B at 433, back to A
at 466, checked at 600 (the 500 ms mark measured from 100) — no toggle has
occurred and the dwell clock was re-latched to 466. -/
theorem C7_rearm_dwell :
    (∀ (btns : Buttons) (T : Tool) (s : AppState) (p : Position) (now : ℚ),
      T ≠ Tool.NONE → getHoveredTool btns p false = T → s.hoverTool ≠ T →
      (step btns s (Obs.hand p false now)).hoverTool = T ∧
      (step btns s (Obs.hand p false now)).hoverStart = some now ∧
      (step btns s (Obs.hand p false now)).hoverConsumed = false ∧
      (step btns s (Obs.hand p false now)).activeTool = s.activeTool) ∧
    (∀ (btns : Buttons) (T : Tool) (s : AppState) (p : Position) (now t1 : ℚ)
      (a : Tool) (consumed : Bool),
      T ≠ Tool.NONE → getHoveredTool btns p false = T →
      HoverInv T t1 a consumed s → now - t1 ≤ DWELL_TIME →
      HoverInv T t1 a consumed (step btns s (Obs.hand p false now))) ∧
    ((runCount toolbarBtns (baseState, 0) (hoverObs
        [(100, ⟨150, 120⟩), (250, ⟨150, 120⟩), (400, ⟨150, 120⟩),
         (433, ⟨350, 120⟩), (466, ⟨150, 120⟩), (600, ⟨150, 120⟩)])).1.activeTool
        = Tool.NONE ∧
      (runCount toolbarBtns (baseState, 0) (hoverObs
        [(100, ⟨150, 120⟩), (250, ⟨150, 120⟩), (400, ⟨150, 120⟩),
         (433, ⟨350, 120⟩), (466, ⟨150, 120⟩), (600, ⟨150, 120⟩)])).1.hoverStart
        = some 466 ∧
      (runCount toolbarBtns (baseState, 0) (hoverObs
        [(100, ⟨150, 120⟩), (250, ⟨150, 120⟩), (400, ⟨150, 120⟩),
         (433, ⟨350, 120⟩), (466, ⟨150, 120⟩), (600, ⟨150, 120⟩)])).2 = 0) := by
  refine ⟨?_, ?_, ?_⟩
  · intro btns T s p now hT hhov h
    have hinv := hover_step_new btns p now hT hhov s h
    exact ⟨hinv.1, hinv.2.1, hinv.2.2.1, hinv.2.2.2⟩
  · intro btns T s p now t1 a consumed hT hhov h hle
    exact (hover_step_cases btns p now t1 a consumed hT hhov s h).1
      (by
        rintro ⟨-, -, hgt⟩
        have hgt' : DWELL_TIME < now - t1 := hgt
        linarith)
  · have hT : Tool.MOVE ≠ Tool.NONE := by simp
    have hR : Tool.ROTATE ≠ Tool.NONE := by simp
    have hhovA : getHoveredTool toolbarBtns ⟨150, 120⟩ false = Tool.MOVE := by
      norm_num [getHoveredTool, isPointInElement, toolbarBtns]
    have hhovB : getHoveredTool toolbarBtns ⟨350, 120⟩ false = Tool.ROTATE := by
      norm_num [getHoveredTool, isPointInElement, toolbarBtns]
    -- frame 1 at 100 over A: re-latch to MOVE
    have hinv1 := hover_step_new toolbarBtns ⟨150, 120⟩ 100 hT hhovA baseState
      (by simp [baseState])
    set s1 := step toolbarBtns baseState (Obs.hand ⟨150, 120⟩ false 100) with hs1
    -- frames 2 and 3 at 250 and 400: within the dwell window
    have hinv2 := (hover_step_cases toolbarBtns ⟨150, 120⟩ 250 100 baseState.activeTool
        false hT hhovA s1 hinv1).1
      (by
        rintro ⟨-, -, hgt⟩
        have hgt' : DWELL_TIME < (250 : ℚ) - 100 := hgt
        norm_num [DWELL_TIME] at hgt')
    set s2 := step toolbarBtns s1 (Obs.hand ⟨150, 120⟩ false 250) with hs2
    have hinv3 := (hover_step_cases toolbarBtns ⟨150, 120⟩ 400 100 baseState.activeTool
        false hT hhovA s2 hinv2).1
      (by
        rintro ⟨-, -, hgt⟩
        have hgt' : DWELL_TIME < (400 : ℚ) - 100 := hgt
        norm_num [DWELL_TIME] at hgt')
    set s3 := step toolbarBtns s2 (Obs.hand ⟨150, 120⟩ false 400) with hs3
    -- frame 4 at 433 over B: hover changes, dwell clock re-latched
    have hinv4 := hover_step_new toolbarBtns ⟨350, 120⟩ 433 hR hhovB s3
      (by rw [hinv3.1]; simp)
    set s4 := step toolbarBtns s3 (Obs.hand ⟨350, 120⟩ false 433) with hs4
    -- frame 5 at 466 back over A: dwell clock re-latched again
    have hinv5 := hover_step_new toolbarBtns ⟨150, 120⟩ 466 hT hhovA s4
      (by rw [hinv4.1]; simp)
    set s5 := step toolbarBtns s4 (Obs.hand ⟨150, 120⟩ false 466) with hs5
    -- frame 6 at 600 (the 500 ms mark from the original start): 134 ≤ DWELL_TIME
    have hinv6 := (hover_step_cases toolbarBtns ⟨150, 120⟩ 600 466 s4.activeTool
        false hT hhovA s5 hinv5).1
      (by
        rintro ⟨-, -, hgt⟩
        have hgt' : DWELL_TIME < (600 : ℚ) - 466 := hgt
        norm_num [DWELL_TIME] at hgt')
    have ha1 : s1.activeTool = baseState.activeTool := hinv1.2.2.2
    have ha2 : s2.activeTool = s1.activeTool := hinv2.2.2.2.trans ha1.symm
    have ha3 : s3.activeTool = s2.activeTool := hinv3.2.2.2.trans (ha2.trans ha1).symm
    have ha4 : s4.activeTool = s3.activeTool := hinv4.2.2.2
    have ha5 : s5.activeTool = s4.activeTool := hinv5.2.2.2
    have ha6 : (step toolbarBtns s5 (Obs.hand ⟨150, 120⟩ false 600)).activeTool
        = s5.activeTool := hinv6.2.2.2.trans ha5.symm
    rw [runCount_cons, if_pos ha1, Nat.add_zero,
        runCount_cons, if_pos ha2, Nat.add_zero,
        runCount_cons, if_pos ha3, Nat.add_zero,
        runCount_cons, if_pos ha4, Nat.add_zero,
        runCount_cons, if_pos ha5, Nat.add_zero,
        runCount_cons, if_pos ha6, Nat.add_zero]
    refine ⟨?_, hinv6.2.1, rfl⟩
    show (step toolbarBtns s5 (Obs.hand ⟨150, 120⟩ false 600)).activeTool = Tool.NONE
    rw [ha6, ha5, ha4, ha3, ha2, ha1]
    rfl

/-- C7 witness: a concrete hover-change frame — after hovering nothing, a
frame over the MOVE button at time 42 latches the dwell start to 42, clears
the consumed flag and leaves the active tool unchanged. -/
theorem C7_witness :
    (step toolbarBtns baseState (Obs.hand ⟨150, 120⟩ false 42)).hoverTool = Tool.MOVE ∧
    (step toolbarBtns baseState (Obs.hand ⟨150, 120⟩ false 42)).hoverStart = some 42 ∧
    (step toolbarBtns baseState (Obs.hand ⟨150, 120⟩ false 42)).hoverConsumed = false ∧
    (step toolbarBtns baseState (Obs.hand ⟨150, 120⟩ false 42)).activeTool
      = baseState.activeTool :=
  C7_rearm_dwell.1 toolbarBtns Tool.MOVE baseState ⟨150, 120⟩ 42 (by simp)
    (by norm_num [getHoveredTool, isPointInElement, toolbarBtns]) (by simp [baseState])

end Fitcheck

